import Mathlib

/-!
Verification of the pesapal-v3 Python client library against its specification.

The development shallowly embeds the code of `src/pesapal_v3/types.py` and
`src/pesapal_v3/client.py`.  Python dictionaries decoded from JSON are modelled
by the inductive `JsonVal`; Python floats are modelled by rationals; raised
exceptions are modelled by the error side of `Except PyErr`.  The mutable
client (cached token and its expiry) is modelled by explicit state passing:
each operation takes the current `ClientState`, the current wall-clock time
and a gateway function (mapping each outgoing HTTP request to the transport
outcome the network produces for it) and returns the new state, the list of
HTTP requests actually placed on the wire, and the result or raised error.
-/

namespace PesapalV3

/-- A JSON-decoded Python value: None, bool, number (int or float, modelled as
a rational), string, list, or dict (an association list of string keys). -/
inductive JsonVal : Type where
  | null : JsonVal
  | bool (b : Bool) : JsonVal
  | num (q : ℚ) : JsonVal
  | str (s : String) : JsonVal
  | arr (elems : List JsonVal) : JsonVal
  | obj (fields : List (String × JsonVal)) : JsonVal

/-- Python truthiness of a JSON-decoded value: None, False, 0, the empty
string, the empty list and the empty dict are falsy; everything else truthy. -/
def JsonVal.truthy : JsonVal → Bool
  | .null => false
  | .bool b => b
  | .num q => q != 0
  | .str s => s != ""
  | .arr elems => ! elems.isEmpty
  | .obj fields => ! fields.isEmpty

/-- Python `isinstance(v, (int, float))` on a JSON-decoded value.  Note that
in Python `bool` is a subclass of `int`, so booleans count as numbers. -/
def JsonVal.isPyNumber : JsonVal → Bool
  | .num _ => true
  | .bool _ => true
  | _ => false

/-- `dict.get(key)` on a modelled JSON object field list. -/
def jsonLookup (fields : List (String × JsonVal)) (key : String) : Option JsonVal :=
  (fields.find? (fun p => p.1 == key)).map (fun p => p.2)

/-- A single apostrophe, used when embedding Python message strings that quote
a value. -/
def apos : String := String.singleton (Char.ofNat 39)

/-- Rendering of a value inside a Python f-string, `f"...{v}..."`.  Faithful
for strings (inserted verbatim) and None/booleans; numeric, list and dict
rendering is approximated (no claim inspects a message built from those). -/
def pyStr : JsonVal → String
  | .null => "None"
  | .bool true => "True"
  | .bool false => "False"
  | .num q => toString q
  | .str s => s
  | .arr _ => "<list>"
  | .obj _ => "<dict>"

/-- The exception kinds the library can raise: `PesapalError` (the typed
network/API error, carrying a message and an optional raw response payload),
`ValueError` (local input validation), and the built-in `AttributeError` and
`TypeError` that escape untyped from unguarded code paths. -/
inductive PyErr : Type where
  | pesapal (message : String) (responseData : Option JsonVal) : PyErr
  | valueError (message : String) : PyErr
  | attributeError (message : String) : PyErr
  | typeError (message : String) : PyErr

/-- Is the raised error the typed network/API kind (`PesapalError`)? -/
def PyErr.isPesapal : PyErr → Bool
  | .pesapal _ _ => true
  | _ => false

/-- Is the raised error the local validation kind (`ValueError`)? -/
def PyErr.isValueError : PyErr → Bool
  | .valueError _ => true
  | _ => false

/-- Did the computation fail with the local validation kind? -/
def validationFailed {α : Type} : Except PyErr α → Bool
  | .error (.valueError _) => true
  | _ => false

/-- Did the computation fail with the typed network/API kind? -/
def pesapalFailed {α : Type} : Except PyErr α → Bool
  | .error (.pesapal _ _) => true
  | _ => false

/-! ## Data model (`src/pesapal_v3/types.py`) -/

/-- `PesapalConfig`: the configuration record after `__post_init__` ran. -/
structure PesapalConfig : Type where
  consumer_key : String
  consumer_secret : String
  api_base_url : String

/-- Python `s.rstrip(slash)`: remove every trailing slash character.
(`List.rdropWhile p l` is `(l.reverse.dropWhile p).reverse`.) -/
def rstripSlash (s : String) : String :=
  String.mk (s.data.rdropWhile (fun c => c == '/'))

/-- Does the string end in a slash character? -/
def endsWithSlash (s : String) : Bool :=
  match s.data.getLast? with
  | some c => c == '/'
  | none => false

/-- `PesapalConfig.__init__` followed by `__post_init__`: reject an empty
consumer key, consumer secret or base URL, then strip trailing slashes from
the base URL. -/
def PesapalConfig.make (key secret baseUrl : String) : Except PyErr PesapalConfig :=
  if key = "" then .error (.valueError "consumer_key is required")
  else if secret = "" then .error (.valueError "consumer_secret is required")
  else if baseUrl = "" then .error (.valueError "api_base_url is required")
  else .ok { consumer_key := key, consumer_secret := secret,
             api_base_url := rstripSlash baseUrl }

/-- `BillingAddress`: four required contact fields plus optional fields. -/
structure BillingAddress : Type where
  email_address : String
  phone_number : String
  first_name : String
  last_name : String
  country_code : Option String
  line_1 : Option String
  line_2 : Option String
  city : Option String
  state : Option String
  postal_code : Option String

/-- `BillingAddress.__init__` followed by `__post_init__`: reject any empty
required field (email, phone, first name, last name), in source order. -/
def BillingAddress.make (email phone first last : String)
    (country_code line_1 line_2 city state postal_code : Option String) :
    Except PyErr BillingAddress :=
  if email = "" then .error (.valueError "email_address is required")
  else if phone = "" then .error (.valueError "phone_number is required")
  else if first = "" then .error (.valueError "first_name is required")
  else if last = "" then .error (.valueError "last_name is required")
  else .ok { email_address := email, phone_number := phone, first_name := first,
             last_name := last, country_code := country_code, line_1 := line_1,
             line_2 := line_2, city := city, state := state,
             postal_code := postal_code }

/-- `OrderData`: a validated order submission record. -/
structure OrderData : Type where
  id : String
  currency : String
  amount : ℚ
  description : String
  callback_url : String
  notification_id : String
  billing_address : BillingAddress

/-- `OrderData.__init__` followed by `__post_init__`: reject empty string
fields and a non-positive amount, in source order.  (The source also checks
`isinstance(amount, (int, float))` and
`isinstance(billing_address, BillingAddress)`; both hold by typing here.) -/
def OrderData.make (id currency : String) (amount : ℚ)
    (description callback_url notification_id : String)
    (billing_address : BillingAddress) : Except PyErr OrderData :=
  if id = "" then .error (.valueError "id is required")
  else if currency = "" then .error (.valueError "currency is required")
  else if amount ≤ 0 then .error (.valueError "amount must be a positive number")
  else if description = "" then .error (.valueError "description is required")
  else if callback_url = "" then .error (.valueError "callback_url is required")
  else if notification_id = "" then .error (.valueError "notification_id is required")
  else .ok { id := id, currency := currency, amount := amount,
             description := description, callback_url := callback_url,
             notification_id := notification_id, billing_address := billing_address }

/-- `TransactionStatusResponse`: best-effort projection of the status JSON;
every field is the result of `data.get(...)`, so absent fields are `none`. -/
structure TransactionStatusResponse : Type where
  payment_method : Option JsonVal
  amount : Option JsonVal
  created_date : Option JsonVal
  confirmation_code : Option JsonVal
  payment_status_description : Option JsonVal
  description : Option JsonVal
  message : Option JsonVal
  payment_account : Option JsonVal
  call_back_url : Option JsonVal
  status_code : Option JsonVal
  merchant_reference : Option JsonVal
  payment_status_code : Option JsonVal
  currency : Option JsonVal
  error : Option JsonVal
  status : Option JsonVal

/-- `TransactionStatusResponse.from_dict` on an already-decoded JSON object. -/
def TransactionStatusResponse.fromDict (fields : List (String × JsonVal)) :
    TransactionStatusResponse :=
  { payment_method := jsonLookup fields "payment_method",
    amount := jsonLookup fields "amount",
    created_date := jsonLookup fields "created_date",
    confirmation_code := jsonLookup fields "confirmation_code",
    payment_status_description := jsonLookup fields "payment_status_description",
    description := jsonLookup fields "description",
    message := jsonLookup fields "message",
    payment_account := jsonLookup fields "payment_account",
    call_back_url := jsonLookup fields "call_back_url",
    status_code := jsonLookup fields "status_code",
    merchant_reference := jsonLookup fields "merchant_reference",
    payment_status_code := jsonLookup fields "payment_status_code",
    currency := jsonLookup fields "currency",
    error := jsonLookup fields "error",
    status := jsonLookup fields "status" }

/-! ## Client embedding (`src/pesapal_v3/client.py`) -/

/-- The mutable per-client state: `self._token` (a stored JSON value, `none`
for Python `None`) and `self._token_expires_at` (an absolute instant). -/
structure ClientState : Type where
  token : Option JsonVal
  tokenExpiresAt : Option ℚ

/-- The state set by `Pesapal.__init__`: no token, no expiry. -/
def initialState : ClientState := { token := none, tokenExpiresAt := none }

/-- The attributes `Pesapal.__init__` sets on the `requests.Session` object:
the default headers, and the ad-hoc `timeout` attribute. -/
structure SessionAttrs : Type where
  headers : List (String × String)
  timeoutAttr : Option (ℚ × ℚ)

/-- The session as configured by `Pesapal.__init__` (lines 66-75): default
headers, and `self.session.timeout = (10, 30)`. -/
def initSession : SessionAttrs :=
  { headers := [("Accept", "application/json"),
                ("Content-Type", "application/json"),
                ("User-Agent", "pesapal-py-v3/1.0.0")],
    timeoutAttr := some (10, 30) }

/-- One HTTP request as passed to `self.session.request(...)` in
`_make_request`: method, relative endpoint, absolute URL, JSON body, query
parameters, the Authorization header if set, and the `timeout` keyword
argument passed to `session.request` (the call site passes none). -/
structure WireRequest : Type where
  method : String
  endpoint : String
  url : String
  body : Option JsonVal
  params : List (String × String)
  authHeader : Option String
  timeoutArg : Option (ℚ × ℚ)

/-- Modelled from the requests library semantics: `Session.request` applies
only the `timeout` argument of the individual call (defaulting to no timeout);
an ad-hoc `timeout` attribute assigned onto the `Session` object is never
consulted by the library. -/
def effectiveTimeout (r : WireRequest) : Option (ℚ × ℚ) := r.timeoutArg

/-- The transport-level outcome of one HTTP request: a timeout, a connection
failure, or a reply with a status code and a body (`none` models a body that
is not valid JSON). -/
inductive WireResult : Type where
  | timeout : WireResult
  | connError : WireResult
  | reply (statusCode : ℕ) (jsonBody : Option JsonVal) : WireResult

/-- `urljoin(f"base/", endpoint)` for the relative endpoints the client uses. -/
def mkUrl (cfg : PesapalConfig) (endpoint : String) : String :=
  cfg.api_base_url ++ "/" ++ endpoint

/-- The `WireRequest` that `_make_request` hands to `session.request`
(lines 124-130): note that no `timeout` keyword argument is passed. -/
def coreRequest (cfg : PesapalConfig) (method endpoint : String)
    (data : Option JsonVal) (params : List (String × String))
    (authHeader : Option String) : WireRequest :=
  { method := method, endpoint := endpoint, url := mkUrl cfg endpoint,
    body := data, params := params, authHeader := authHeader, timeoutArg := none }

/-- The try/except body of `_make_request` (lines 121-167) applied to the
transport outcome of the issued request: map transport failures and non-2xx
statuses to `PesapalError`, reject invalid JSON, and raise on a JSON object
whose `error` field is truthy.  A truthy non-dict `error` value reaches
`.get` on a non-dict and so escapes as an `AttributeError`; likewise, on the
HTTP-error path a valid non-dict JSON body reaches `error_data.get`. -/
def coreOutcome (gw : WireRequest → WireResult) (req : WireRequest) :
    Except PyErr JsonVal :=
  match gw req with
  | .timeout => .error (.pesapal "Request timed out" none)
  | .connError => .error (.pesapal "Connection error - check your internet connection" none)
  | .reply statusCode jsonBody =>
    if 400 ≤ statusCode ∧ statusCode < 600 then
      -- response.raise_for_status() raised HTTPError
      match jsonBody.getD (.obj []) with
      | .obj errFields =>
        let baseMsg := "HTTP " ++ toString statusCode ++ " error"
        let errMsg :=
          match jsonLookup errFields "message" with
          | some m => if m.truthy then baseMsg ++ ": " ++ pyStr m else baseMsg
          | none => baseMsg
        .error (.pesapal errMsg (some (.obj errFields)))
      | _ => .error (.attributeError "get")
    else
      match jsonBody with
      | none => .error (.pesapal "Invalid JSON response: <json decode error>" none)
      | some respData =>
        match respData with
        | .obj fields =>
          match jsonLookup fields "error" with
          | some errVal =>
            if errVal.truthy then
              match errVal with
              | .obj errFields =>
                .error (.pesapal
                  ("API error: " ++ pyStr ((jsonLookup errFields "message").getD (.str "Unknown API error")))
                  (some (.obj fields)))
              | _ => .error (.attributeError "get")
            else .ok respData
          | none => .ok respData
        | _ => .ok respData

/-- The unauthenticated core of `_make_request`: build the request, hand it to
the session, and process the outcome.  Returns the wire trace (always exactly
the one issued request) and the result. -/
def makeRequestCore (cfg : PesapalConfig) (gw : WireRequest → WireResult)
    (method endpoint : String) (data : Option JsonVal)
    (params : List (String × String)) (authHeader : Option String) :
    List WireRequest × Except PyErr JsonVal :=
  ([coreRequest cfg method endpoint data params authHeader],
   coreOutcome gw (coreRequest cfg method endpoint data params authHeader))

/-- `Pesapal._is_token_valid` (lines 77-86).  Mirrors the Python truthiness
checks exactly: a `None` or falsy token is invalid, and the stored expiry is
compared against the current time only when it is truthy (present and
nonzero). -/
def isTokenValid (st : ClientState) (now : ℚ) : Bool :=
  match st.token with
  | none => false
  | some t =>
    if ! t.truthy then false
    else
      match st.tokenExpiresAt with
      | none => true
      | some e => if e ≠ 0 ∧ e ≤ now then false else true

/-- The JSON body `_refresh_token` posts to the token endpoint. -/
def authPayload (cfg : PesapalConfig) : JsonVal :=
  .obj [("consumer_key", .str cfg.consumer_key),
        ("consumer_secret", .str cfg.consumer_secret)]

/-- The one wire request a token refresh issues: an unauthenticated POST to
`Auth/RequestToken` carrying the consumer credentials. -/
def authWireRequest (cfg : PesapalConfig) : WireRequest :=
  coreRequest cfg "POST" "Auth/RequestToken" (some (authPayload cfg)) [] none

/-- The raised-or-ok outcome of `_refresh_token`: the error raised by the
underlying `_make_request` call, or the authentication failure raised when
the response has no `token` key (a non-dict response body has no such key),
or success. -/
def refreshResult (cfg : PesapalConfig) (gw : WireRequest → WireResult) :
    Except PyErr Unit :=
  match coreOutcome gw (authWireRequest cfg) with
  | .error e => .error e
  | .ok respData =>
    match respData with
    | .obj fields =>
      match jsonLookup fields "token" with
      | none => .error (.pesapal ("Authentication failed: " ++ pyStr respData) none)
      | some _ => .ok ()
    | _ => .error (.pesapal ("Authentication failed: " ++ pyStr respData) none)

/-- The client state after `_refresh_token`: unchanged when the call raised
(the assignments come after every raise in the source); otherwise the token
is stored and the expiry is set to now plus `expiryDate` when `expiryDate`
is an int or float (Python booleans being ints, True and False count 1 and
0), and is left unchanged otherwise. -/
def refreshNewState (cfg : PesapalConfig) (gw : WireRequest → WireResult)
    (now : ℚ) (st : ClientState) : ClientState :=
  match coreOutcome gw (authWireRequest cfg) with
  | .ok (.obj fields) =>
    match jsonLookup fields "token" with
    | some tok =>
      let st1 : ClientState := { st with token := some tok }
      match (jsonLookup fields "expiryDate").getD (.num 3600) with
      | .num q => { st1 with tokenExpiresAt := some (now + q) }
      | .bool b => { st1 with tokenExpiresAt := some (now + (if b then 1 else 0)) }
      | _ => st1
    | none => st
  | _ => st

/-- `Pesapal._refresh_token` (lines 169-195), assembled from the state and
outcome components: one unauthenticated POST to the token endpoint, the new
client state, and the raised error if any.  (For a non-dict response body the
Python membership test can also raise; no claim exercises that.) -/
def refreshToken (cfg : PesapalConfig) (gw : WireRequest → WireResult)
    (now : ℚ) (st : ClientState) :
    ClientState × List WireRequest × Except PyErr Unit :=
  (refreshNewState cfg gw now st, [authWireRequest cfg], refreshResult cfg gw)

/-- The bearer header value `f"Bearer \x7bself._token\x7d"`. -/
def bearerOf (token : Option JsonVal) : String :=
  "Bearer " ++ pyStr (token.getD .null)

/-- `Pesapal._make_request` (lines 88-167): for an authenticated call, refresh
the token first when the cached one is invalid, then attach the bearer header
and issue one request; an unauthenticated call issues the bare request. -/
def makeRequest (cfg : PesapalConfig) (gw : WireRequest → WireResult)
    (now : ℚ) (st : ClientState) (method endpoint : String)
    (data : Option JsonVal) (params : List (String × String))
    (authenticated : Bool) :
    ClientState × List WireRequest × Except PyErr JsonVal :=
  if authenticated then
    if isTokenValid st now then
      let (trace, res) := makeRequestCore cfg gw method endpoint data params
        (some (bearerOf st.token))
      (st, trace, res)
    else
      match refreshToken cfg gw now st with
      | (st1, rtrace, .error e) => (st1, rtrace, .error e)
      | (st1, rtrace, .ok ()) =>
        let (trace, res) := makeRequestCore cfg gw method endpoint data params
          (some (bearerOf st1.token))
        (st1, rtrace ++ trace, res)
  else
    let (trace, res) := makeRequestCore cfg gw method endpoint data params none
    (st, trace, res)

/-- `Pesapal.get_auth_token` (lines 197-213): refresh when forced or when the
cached token is invalid, then return the stored token. -/
def getAuthToken (cfg : PesapalConfig) (gw : WireRequest → WireResult)
    (now : ℚ) (st : ClientState) (forceRefresh : Bool) :
    ClientState × List WireRequest × Except PyErr JsonVal :=
  if forceRefresh || ! isTokenValid st now then
    match refreshToken cfg gw now st with
    | (st1, trace, .error e) => (st1, trace, .error e)
    | (st1, trace, .ok ()) => (st1, trace, .ok (st1.token.getD .null))
  else
    (st, [], .ok (st.token.getD .null))

/-- `Pesapal.get_transaction_status` (lines 278-302): reject an empty tracking
id before any network activity, then issue one authenticated GET and project
the JSON object into the typed status record.  (`from_dict` on a non-dict
reply raises `AttributeError`; no claim exercises that.) -/
def getTransactionStatus (cfg : PesapalConfig) (gw : WireRequest → WireResult)
    (now : ℚ) (st : ClientState) (orderTrackingId : String) :
    ClientState × List WireRequest × Except PyErr TransactionStatusResponse :=
  if orderTrackingId = "" then
    (st, [], .error (.valueError "order_tracking_id is required"))
  else
    match makeRequest cfg gw now st "GET" "Transactions/GetTransactionStatus"
        none [("orderTrackingId", orderTrackingId)] true with
    | (st1, trace, .error e) => (st1, trace, .error e)
    | (st1, trace, .ok (.obj fields)) =>
      (st1, trace, .ok (TransactionStatusResponse.fromDict fields))
    | (st1, trace, .ok _) => (st1, trace, .error (.attributeError "get"))

/-- `str(e)` of a raised exception, as interpolated by the refund/cancel
wrappers. -/
def errStr : PyErr → String
  | .pesapal m _ => m
  | .valueError m => m
  | .attributeError m => m
  | .typeError m => m

/-- Python `v in [...]` over a list of string literals: equality holds only
for an equal string. -/
def pyInStrList (v : JsonVal) (names : List String) : Bool :=
  match v with
  | .str s => names.contains s
  | _ => false

/-- The static instruction lines of the refund advisory record. -/
def refundInstructions : List JsonVal :=
  [.str "Pesapal API v3 does not provide direct refund endpoints.",
   .str "To process this refund, please:",
   .str "1. Log into your Pesapal merchant dashboard",
   .str "2. Navigate to Transactions > Find this transaction",
   .str "3. Use the refund option in the dashboard",
   .str "Or contact Pesapal support with the following details:"]

/-- The fields of the advisory record `refund_transaction` returns
(lines 344-367).  `partialReq` records whether an explicit amount was given,
which selects `partial_refund` over `full_refund`. -/
def refundRecordFields (otid : String) (txAmount refundAmount : JsonVal)
    (reason : String) (partialReq : Bool) (now : ℚ) : List (String × JsonVal) :=
  [("order_tracking_id", .str otid),
   ("transaction_amount", txAmount),
   ("refund_amount", refundAmount),
   ("reason", .str reason),
   ("request_type", .str (if partialReq then "partial_refund" else "full_refund")),
   ("status", .str "refund_requested"),
   ("timestamp", .num now),
   ("instructions", .arr refundInstructions),
   ("support_details",
    .obj [("order_tracking_id", .str otid),
          ("refund_amount", refundAmount),
          ("reason", .str reason),
          ("support_email", .str "support@pesapal.com"),
          ("merchant_phone", .str "+254-70-619-1729")])]

/-- The message of the refund rejection raised when the requested amount
exceeds the transaction amount. -/
def refundExceedsMsg (a t : ℚ) : String :=
  "Refund amount (" ++ toString a ++ ") cannot exceed transaction amount (" ++
    toString t ++ ")"

/-- `Pesapal.refund_transaction` (lines 304-371): reject an empty tracking id;
look the status up, wrapping any failure in a `PesapalError`; require the
payment status description to be exactly the string Completed; with an
explicit amount, reject it when it exceeds the transaction amount; finally
build the advisory record. -/
def refundTransaction (cfg : PesapalConfig) (gw : WireRequest → WireResult)
    (now : ℚ) (st : ClientState) (orderTrackingId : String)
    (amount : Option ℚ) (reason : String) :
    ClientState × List WireRequest × Except PyErr JsonVal :=
  if orderTrackingId = "" then
    (st, [], .error (.valueError "order_tracking_id is required"))
  else
    match getTransactionStatus cfg gw now st orderTrackingId with
    | (st1, trace, .error e) =>
      (st1, trace, .error (.pesapal ("Failed to check transaction status: " ++ errStr e) none))
    | (st1, trace, .ok status) =>
      let isCompleted : Bool :=
        match status.payment_status_description with
        | some (.str s) => s == "Completed"
        | _ => false
      if ! isCompleted then
        (st1, trace, .error (.pesapal
          ("Transaction with ID " ++ orderTrackingId ++
            " is not completed and cannot be refunded. Status: " ++
            pyStr ((status.payment_status_description).getD .null)) none))
      else
        -- getattr(status, 'amount', 0): the attribute always exists and is
        -- Python None when the response omitted it
        let txAmount : JsonVal := (status.amount).getD .null
        match amount with
        | some a =>
          match txAmount with
          | .num t =>
            if t < a then
              (st1, trace, .error (.pesapal (refundExceedsMsg a t) none))
            else
              (st1, trace, .ok (.obj (refundRecordFields orderTrackingId txAmount (.num a) reason true now)))
          | .bool b =>
            if ((if b then 1 else 0) : ℚ) < a then
              (st1, trace, .error (.pesapal (refundExceedsMsg a (if b then 1 else 0)) none))
            else
              (st1, trace, .ok (.obj (refundRecordFields orderTrackingId txAmount (.num a) reason true now)))
          | _ => (st1, trace, .error (.typeError "unsupported operand comparison"))
        | none =>
          (st1, trace, .ok (.obj (refundRecordFields orderTrackingId txAmount txAmount reason false now)))

/-- The static instruction lines of the cancellation advisory record. -/
def cancelInstructions : List JsonVal :=
  [.str "Pesapal API v3 does not provide direct cancellation endpoints.",
   .str "For pending/processing transactions, consider:",
   .str "1. Contact customer to stop any payment attempts",
   .str "2. Monitor transaction status - pending transactions may expire automatically",
   .str "3. If needed, contact Pesapal support for manual cancellation",
   .str "4. Use merchant dashboard to manage the transaction"]

/-- The fields of the advisory record `cancel_order` returns for a Pending or
Processing transaction (lines 407-428). -/
def cancelRecordFields (otid : String) (statusDesc : JsonVal) (reason : String)
    (now : ℚ) : List (String × JsonVal) :=
  [("order_tracking_id", .str otid),
   ("current_status", statusDesc),
   ("reason", .str reason),
   ("request_type", .str "cancellation"),
   ("status", .str "cancellation_requested"),
   ("timestamp", .num now),
   ("instructions", .arr cancelInstructions),
   ("support_details",
    .obj [("order_tracking_id", .str otid),
          ("reason", .str reason),
          ("support_email", .str "support@pesapal.com"),
          ("merchant_phone", .str "+254-70-619-1729")])]

/-- The fields of the generic record `cancel_order` returns for any other
status (lines 435-442); note it carries no `request_type` field. -/
def cancelNaFields (otid : String) (statusDesc : JsonVal) (reason : String)
    (now : ℚ) : List (String × JsonVal) :=
  [("order_tracking_id", .str otid),
   ("current_status", statusDesc),
   ("reason", .str reason),
   ("status", .str "cancellation_not_applicable"),
   ("message", .str ("Transaction status " ++ apos ++ pyStr statusDesc ++ apos ++
     " does not require cancellation")),
   ("timestamp", .num now)]

/-- The message of the cancellation rejection for a Completed or Failed
transaction. -/
def cancelRejectMsg (otid : String) (statusDesc : JsonVal) : String :=
  "Transaction with ID " ++ otid ++ " cannot be cancelled. Status: " ++ pyStr statusDesc

/-- `Pesapal.cancel_order` (lines 373-442): reject an empty tracking id; look
the status up, wrapping any failure in a `PesapalError`; raise for a Completed
or Failed status; return the cancellation advisory record for Pending or
Processing; return the generic not-applicable record otherwise. -/
def cancelOrder (cfg : PesapalConfig) (gw : WireRequest → WireResult)
    (now : ℚ) (st : ClientState) (orderTrackingId reason : String) :
    ClientState × List WireRequest × Except PyErr JsonVal :=
  if orderTrackingId = "" then
    (st, [], .error (.valueError "order_tracking_id is required"))
  else
    match getTransactionStatus cfg gw now st orderTrackingId with
    | (st1, trace, .error e) =>
      (st1, trace, .error (.pesapal ("Failed to check transaction status: " ++ errStr e) none))
    | (st1, trace, .ok status) =>
      -- getattr(status, 'payment_status_description', 'Unknown'): the
      -- attribute always exists and is Python None when the response omitted it
      let statusDesc : JsonVal := (status.payment_status_description).getD .null
      if pyInStrList statusDesc ["Completed", "Failed"] then
        (st1, trace, .error (.pesapal (cancelRejectMsg orderTrackingId statusDesc) none))
      else if pyInStrList statusDesc ["Pending", "Processing"] then
        (st1, trace, .ok (.obj (cancelRecordFields orderTrackingId statusDesc reason now)))
      else
        (st1, trace, .ok (.obj (cancelNaFields orderTrackingId statusDesc reason now)))

/-- Number of requests in a wire trace aimed at the token endpoint. -/
def authRequestCount (trace : List WireRequest) : ℕ :=
  (trace.filter (fun r => r.endpoint == "Auth/RequestToken")).length

/-- Does the client hold a (truthy) token?  Used to state the refresh
condition the specification describes. -/
def heldToken (st : ClientState) : Bool :=
  match st.token with
  | none => false
  | some t => t.truthy

/-! ## Concrete fixtures used by witnesses and counterexamples -/

/-- A sample configuration. -/
def testCfg : PesapalConfig :=
  { consumer_key := "ck", consumer_secret := "cs",
    api_base_url := "https://api.example.com" }

/-- A gateway that replies 200 with an empty JSON object to everything. -/
def okGw : WireRequest → WireResult := fun _ => .reply 200 (some (.obj []))

/-- A client state holding a non-empty token whose recorded expiry is 1000. -/
def c1State : ClientState := { token := some (.str "T"), tokenExpiresAt := some 1000 }

/-- A gateway whose status lookups report a Pending transaction. -/
def c1Gw : WireRequest → WireResult := fun _ =>
  .reply 200 (some (.obj [("payment_status_description", .str "Pending")]))

/-- First authenticated operation at time 10 (within the validity window). -/
def c1Run1 : ClientState × List WireRequest × Except PyErr TransactionStatusResponse :=
  getTransactionStatus testCfg c1Gw 10 c1State "X"

/-- Second authenticated operation at time 20, on the state the first left. -/
def c1Run2 : ClientState × List WireRequest × Except PyErr TransactionStatusResponse :=
  getTransactionStatus testCfg c1Gw 20 c1Run1.1 "X"

/-- A gateway whose token endpoint grants token T with `expiryDate` -5, so a
refresh at time 5 records the expiry instant 0. -/
def c2Gw : WireRequest → WireResult := fun _ =>
  .reply 200 (some (.obj [("token", .str "T"), ("expiryDate", .num (-5))]))

/-- The client state reached by refreshing at time 5 against `c2Gw`: token T
with recorded expiry instant 0. -/
def c2St : ClientState := { token := some (.str "T"), tokenExpiresAt := some 0 }

/-- A gateway replying 200 with a JSON object whose `error` field is a truthy
non-dict value (a string). -/
def c4Gw : WireRequest → WireResult := fun _ =>
  .reply 200 (some (.obj [("error", .str "bad creds")]))

/-- The result `_make_request` produces for the `c4Gw` reply. -/
def c4Run : Except PyErr JsonVal :=
  (makeRequestCore testCfg c4Gw "POST" "Transactions/SubmitOrderRequest" none [] none).2

/-- The response body carrying a proper error object. -/
def c4Body : List (String × JsonVal) :=
  [("error", .obj [("message", .str "Invalid request")])]

/-- A gateway replying 201 with `c4Body`. -/
def c4WGw : WireRequest → WireResult := fun _ => .reply 201 (some (.obj c4Body))

/-- A valid billing address value, used as an argument of order construction. -/
def c7ba : BillingAddress :=
  { email_address := "e@x.com", phone_number := "0700000000", first_name := "A",
    last_name := "B", country_code := none, line_1 := none, line_2 := none,
    city := none, state := none, postal_code := none }

/-- The configuration produced from the all-slash base URL input. -/
def c8Cfg : PesapalConfig :=
  { consumer_key := "k", consumer_secret := "s", api_base_url := "" }

/-- A client state holding a non-empty token and no recorded expiry. -/
def c5St : ClientState := { token := some (.str "T"), tokenExpiresAt := none }

/-- A gateway whose status lookups report a Completed transaction of
amount 1000. -/
def c5Gw : WireRequest → WireResult := fun _ =>
  .reply 200 (some (.obj [("payment_status_description", .str "Completed"),
                          ("amount", .num 1000)]))

/-- A gateway whose status lookups report a Pending transaction. -/
def c6Gw : WireRequest → WireResult := fun _ =>
  .reply 200 (some (.obj [("payment_status_description", .str "Pending"),
                          ("amount", .num 1000)]))

/-- A gateway whose status lookups report an unrecognised status string. -/
def c9Gw : WireRequest → WireResult := fun _ =>
  .reply 200 (some (.obj [("payment_status_description", .str "INVALID")]))

/-- The authenticated status GET issued from state `c5St` for tracking id X. -/
def c5Req : WireRequest :=
  coreRequest testCfg "GET" "Transactions/GetTransactionStatus" none
    [("orderTrackingId", "X")] (some (bearerOf (some (.str "T"))))

/-- The typed status record decoded from the `c5Gw` reply. -/
def c5Status : TransactionStatusResponse :=
  TransactionStatusResponse.fromDict
    [("payment_status_description", .str "Completed"), ("amount", .num 1000)]

/-- The typed status record decoded from the `c6Gw` reply. -/
def c6Status : TransactionStatusResponse :=
  TransactionStatusResponse.fromDict
    [("payment_status_description", .str "Pending"), ("amount", .num 1000)]

/-- The typed status record decoded from the `c9Gw` reply. -/
def c9Status : TransactionStatusResponse :=
  TransactionStatusResponse.fromDict [("payment_status_description", .str "INVALID")]

/-- A token-endpoint reply carrying a date-string `expiryDate`. -/
def c10Body : List (String × JsonVal) :=
  [("token", .str "T10"), ("expiryDate", .str "2026-01-01T00:00:00Z")]

/-- A gateway granting `c10Body` to every request. -/
def c10Gw : WireRequest → WireResult := fun _ => .reply 200 (some (.obj c10Body))

/-! ## Theorems -/

/-- Helper: the wire trace of a token refresh is exactly the one
unauthenticated POST to the token endpoint, whatever the gateway replies. -/
theorem refreshToken_trace (cfg : PesapalConfig) (gw : WireRequest → WireResult)
    (now : ℚ) (st : ClientState) :
    (refreshToken cfg gw now st).2.1 = [authWireRequest cfg] := rfl

/-- Helper: a non-empty string token whose recorded expiry lies strictly in
the future is valid. -/
theorem isTokenValid_of_future (st : ClientState) (s : String) (e now : ℚ)
    (htok : st.token = some (.str s)) (hs : s ≠ "")
    (hexp : st.tokenExpiresAt = some e) (hlt : now < e) :
    isTokenValid st now = true := by
  unfold isTokenValid
  rw [htok, hexp]
  show (if (!(JsonVal.str s).truthy) = true then false
        else if e ≠ 0 ∧ e ≤ now then false else true) = true
  have htr : (JsonVal.str s).truthy = true := by
    simp [JsonVal.truthy, hs]
  rw [htr]
  rw [if_neg (by simp)]
  rw [if_neg]
  rintro ⟨-, hle⟩
  exact absurd hlt (not_lt.mpr hle)

/-- Helper: a truthy token with no recorded expiry is valid at every time. -/
theorem isTokenValid_no_expiry (st : ClientState) (t : JsonVal) (now : ℚ)
    (htok : st.token = some t) (ht : t.truthy = true)
    (hexp : st.tokenExpiresAt = none) :
    isTokenValid st now = true := by
  unfold isTokenValid
  rw [htok, hexp]
  show (if (!t.truthy) = true then false else true) = true
  rw [ht]
  rfl

/-- Helper: with a valid cached token, an authenticated `_make_request` does
not refresh: the state is unchanged and the single wire request carries the
bearer header of the cached token. -/
theorem makeRequest_of_valid (cfg : PesapalConfig) (gw : WireRequest → WireResult)
    (now : ℚ) (st : ClientState) (method endpoint : String)
    (data : Option JsonVal) (params : List (String × String))
    (hv : isTokenValid st now = true) :
    makeRequest cfg gw now st method endpoint data params true =
      (st, [coreRequest cfg method endpoint data params (some (bearerOf st.token))],
       coreOutcome gw (coreRequest cfg method endpoint data params (some (bearerOf st.token)))) := by
  unfold makeRequest
  rw [hv]
  rfl

/-- Helper: with a valid cached token and a non-empty tracking id, a status
lookup leaves the state unchanged and issues exactly one wire request, the
authenticated GET to the status endpoint. -/
theorem getTransactionStatus_of_valid (cfg : PesapalConfig)
    (gw : WireRequest → WireResult) (now : ℚ) (st : ClientState) (tid : String)
    (hv : isTokenValid st now = true) (htid : tid ≠ "") :
    (getTransactionStatus cfg gw now st tid).1 = st ∧
    (getTransactionStatus cfg gw now st tid).2.1 =
      [coreRequest cfg "GET" "Transactions/GetTransactionStatus" none
        [("orderTrackingId", tid)] (some (bearerOf st.token))] := by
  unfold getTransactionStatus
  rw [if_neg htid, makeRequest_of_valid cfg gw now st _ _ _ _ hv]
  rcases h : coreOutcome gw (coreRequest cfg "GET" "Transactions/GetTransactionStatus"
      none [("orderTrackingId", tid)] (some (bearerOf st.token))) with e | v
  · exact ⟨rfl, rfl⟩
  · rcases v with _ | b | q | s | elems | fields <;> exact ⟨rfl, rfl⟩

/-- Claim C1, amended: for every client whose cached token is non-empty and
whose recorded expiry instant is strictly after the current time, two
authenticated operations issued within that validity window produce no
underlying authentication request at all: the token request endpoint is not
called and both operations reuse the cached token, leaving the client state
unchanged. -/
theorem c1_valid_window_zero_auth_requests (cfg : PesapalConfig)
    (gw : WireRequest → WireResult) (st : ClientState) (s : String)
    (e now1 now2 : ℚ) (tid1 tid2 : String)
    (htok : st.token = some (.str s)) (hs : s ≠ "")
    (hexp : st.tokenExpiresAt = some e) (h1 : now1 < e) (h2 : now2 < e)
    (ht1 : tid1 ≠ "") (ht2 : tid2 ≠ "") :
    authRequestCount ((getTransactionStatus cfg gw now1 st tid1).2.1 ++
      (getTransactionStatus cfg gw now2 (getTransactionStatus cfg gw now1 st tid1).1 tid2).2.1) = 0 ∧
    (getTransactionStatus cfg gw now1 st tid1).1 = st ∧
    (getTransactionStatus cfg gw now2 (getTransactionStatus cfg gw now1 st tid1).1 tid2).1 = st := by
  have hv1 := isTokenValid_of_future st s e now1 htok hs hexp h1
  have hv2 := isTokenValid_of_future st s e now2 htok hs hexp h2
  obtain ⟨hst1, htr1⟩ := getTransactionStatus_of_valid cfg gw now1 st tid1 hv1 ht1
  rw [hst1]
  obtain ⟨hst2, htr2⟩ := getTransactionStatus_of_valid cfg gw now2 st tid2 hv2 ht2
  refine ⟨?_, rfl, hst2⟩
  rw [htr1, htr2]
  have hne : (("Transactions/GetTransactionStatus" : String) == "Auth/RequestToken") = false := by
    decide
  simp [authRequestCount, List.filter, coreRequest, hne]

/-- Claim C1, counterexample to the claim as stated: a client already holding
the non-empty token T with recorded expiry 1000 issues two authenticated
status lookups at times 10 and 20 (both strictly before 1000); the combined
wire trace contains zero requests to the token endpoint, not exactly one. -/
theorem c1_counterexample :
    c1State.token = some (.str "T") ∧ c1State.tokenExpiresAt = some 1000 ∧
    (10 : ℚ) < 1000 ∧ (20 : ℚ) < 1000 ∧
    authRequestCount (c1Run1.2.1 ++ c1Run2.2.1) ≠ 1 ∧
    authRequestCount (c1Run1.2.1 ++ c1Run2.2.1) = 0 :=
  ⟨rfl, rfl, by norm_num, by norm_num, by decide, by decide⟩

/-- Claim C1, witness: the amended theorem applied to the concrete fixture. -/
theorem c1_valid_window_zero_auth_requests_witness :
    authRequestCount (c1Run1.2.1 ++ c1Run2.2.1) = 0 ∧
    c1Run1.1 = c1State ∧ c1Run2.1 = c1State :=
  c1_valid_window_zero_auth_requests testCfg c1Gw c1State "T" 1000 10 20 "X" "X"
    rfl (by decide) rfl (by norm_num) (by norm_num) (by decide) (by decide)

/-- Helper: the cached token is invalid exactly when no truthy token is held
or a nonzero recorded expiry lies at or before the current time. -/
theorem isTokenValid_false_iff (st : ClientState) (now : ℚ) :
    isTokenValid st now = false ↔
      heldToken st = false ∨ ∃ e, st.tokenExpiresAt = some e ∧ e ≠ 0 ∧ e ≤ now := by
  obtain ⟨tok, exp⟩ := st
  unfold isTokenValid heldToken
  rcases tok with _ | t
  · simp
  · show (if (!t.truthy) = true then false
          else match exp with
               | none => true
               | some e => if e ≠ 0 ∧ e ≤ now then false else true) = false ↔
        (t.truthy = false ∨ ∃ e, exp = some e ∧ e ≠ 0 ∧ e ≤ now)
    cases ht : t.truthy with
    | false => simp
    | true =>
      simp only [Bool.not_true, Bool.false_eq_true, if_false, false_or]
      rcases exp with _ | e
      · simp
      · by_cases hc : e ≠ 0 ∧ e ≤ now <;> simp [hc]

/-- Claim C2, amended: `get_token(force_refresh)` performs a synchronous
refresh (exactly one unauthenticated token request) before returning exactly
when `force_refresh` is true, or no truthy token is held, or the held token
carries a recorded nonzero expiry at or before the current time; otherwise it
returns the cached token unchanged with no request at all.  (A recorded
expiry of exactly zero is treated by the source as no expiry, because the
Python truthiness guard on `self._token_expires_at` rejects `0.0`.) -/
theorem c2_get_token_refresh_policy (cfg : PesapalConfig)
    (gw : WireRequest → WireResult) (now : ℚ) (st : ClientState)
    (forceRefresh : Bool) :
    ((forceRefresh = true ∨ heldToken st = false ∨
        ∃ e, st.tokenExpiresAt = some e ∧ e ≠ 0 ∧ e ≤ now) →
      (getAuthToken cfg gw now st forceRefresh).2.1 = [authWireRequest cfg] ∧
      (authWireRequest cfg).authHeader = none) ∧
    (¬(forceRefresh = true ∨ heldToken st = false ∨
        ∃ e, st.tokenExpiresAt = some e ∧ e ≠ 0 ∧ e ≤ now) →
      getAuthToken cfg gw now st forceRefresh = (st, [], .ok (st.token.getD .null))) := by
  constructor
  · intro h
    have hbr : (forceRefresh || ! isTokenValid st now) = true := by
      rcases h with h | h
      · simp [h]
      · have hfalse : isTokenValid st now = false :=
          (isTokenValid_false_iff st now).mpr h
        simp [hfalse]
    unfold getAuthToken
    rw [hbr]
    simp only [if_true]
    refine ⟨?_, rfl⟩
    rcases hres : refreshResult cfg gw with e | u <;>
      simp [refreshToken, hres]
  · intro h
    have hf : forceRefresh = false := by
      cases forceRefresh
      · rfl
      · exact absurd (Or.inl rfl) h
    have hv : isTokenValid st now = true := by
      cases hvv : isTokenValid st now
      · exact absurd (Or.inr ((isTokenValid_false_iff st now).mp hvv)) h
      · rfl
    unfold getAuthToken
    rw [hf, hv]
    rfl

/-- Claim C2, witness: the amended theorem applied to a fresh client (no
token held), where the refresh branch fires and a single unauthenticated
token request is placed on the wire. -/
theorem c2_get_token_refresh_policy_witness :
    heldToken initialState = false ∧
    (getAuthToken testCfg okGw 0 initialState false).2.1 = [authWireRequest testCfg] ∧
    (authWireRequest testCfg).authHeader = none :=
  ⟨rfl, (c2_get_token_refresh_policy testCfg okGw 0 initialState false).1
    (Or.inr (Or.inl rfl))⟩

/-- Claim C2, counterexample to the claim as stated: refreshing at time 5
against a gateway granting `expiryDate` -5 records the expiry instant 0;
the claim says a held token whose expiry (0) is at or before the current
time (5) forces a refresh, but `get_token(False)` performs no request and
returns the cached token with the state unchanged. -/
theorem c2_counterexample :
    (refreshToken testCfg c2Gw 5 initialState).1 = c2St ∧
    c2St.token = some (.str "T") ∧ c2St.tokenExpiresAt = some 0 ∧
    (0 : ℚ) ≤ 5 ∧
    getAuthToken testCfg c2Gw 5 c2St false = (c2St, [], .ok (.str "T")) := by
  refine ⟨?_, rfl, rfl, by norm_num, rfl⟩
  show ({ token := some (.str "T"), tokenExpiresAt := some (5 + (-5)) } : ClientState) = c2St
  have h : (5 : ℚ) + (-5) = 0 := by norm_num
  rw [h]
  rfl

/-- Claim C10: a token refresh whose response carries a `token` field and an
`expiryDate` that is neither an int nor a float stores the token and leaves
the recorded expiry instant unchanged; and a client holding a truthy token
with no recorded expiry instant is treated as valid on every subsequent
authenticated call, which therefore performs no refresh (its single wire
request is the operation itself, with the cached bearer token attached). -/
theorem c10_nonnumeric_expiry_ignored :
    (∀ (cfg : PesapalConfig) (gw : WireRequest → WireResult) (now : ℚ)
       (st : ClientState) (fields : List (String × JsonVal)) (tok ev : JsonVal),
       gw (authWireRequest cfg) = .reply 200 (some (.obj fields)) →
       jsonLookup fields "error" = none →
       jsonLookup fields "token" = some tok →
       jsonLookup fields "expiryDate" = some ev →
       ev.isPyNumber = false →
       refreshToken cfg gw now st =
         ({ token := some tok, tokenExpiresAt := st.tokenExpiresAt },
          [authWireRequest cfg], .ok ())) ∧
    (∀ (st : ClientState) (t : JsonVal) (now : ℚ),
       st.token = some t → t.truthy = true → st.tokenExpiresAt = none →
       isTokenValid st now = true) ∧
    (∀ (cfg : PesapalConfig) (gw : WireRequest → WireResult) (now : ℚ)
       (st : ClientState) (t : JsonVal) (method endpoint : String)
       (data : Option JsonVal) (params : List (String × String)),
       st.token = some t → t.truthy = true → st.tokenExpiresAt = none →
       makeRequest cfg gw now st method endpoint data params true =
         (st, [coreRequest cfg method endpoint data params (some (bearerOf st.token))],
          coreOutcome gw (coreRequest cfg method endpoint data params (some (bearerOf st.token))))) := by
  refine ⟨?_, ?_, ?_⟩
  · intro cfg gw now st fields tok ev hgw herr htok hexp hnum
    have hout : coreOutcome gw (authWireRequest cfg) = .ok (.obj fields) := by
      unfold coreOutcome
      rw [hgw]
      have hns : ¬(400 ≤ 200 ∧ (200 : ℕ) < 600) := by omega
      simp [hns, herr]
    unfold refreshToken refreshNewState refreshResult
    rw [hout]
    simp only [htok, herr]
    rcases ev with _ | b | q | s | elems | efields <;>
      simp_all [JsonVal.isPyNumber, hexp]
  · intro st t now htok ht hexp
    exact isTokenValid_no_expiry st t now htok ht hexp
  · intro cfg gw now st t method endpoint data params htok ht hexp
    exact makeRequest_of_valid cfg gw now st method endpoint data params
      (isTokenValid_no_expiry st t now htok ht hexp)

/-- Claim C10, witness: a concrete refresh against a gateway whose
`expiryDate` is a date string stores the token and records no expiry; the
resulting client passes the validity check at a later time and an
authenticated call performs no refresh. -/
theorem c10_nonnumeric_expiry_ignored_witness :
    refreshToken testCfg c10Gw 50 initialState =
      ({ token := some (.str "T10"), tokenExpiresAt := none },
       [authWireRequest testCfg], .ok ()) ∧
    isTokenValid { token := some (.str "T10"), tokenExpiresAt := none } 99999 = true ∧
    makeRequest testCfg c10Gw 99999 { token := some (.str "T10"), tokenExpiresAt := none }
        "GET" "Transactions/GetTransactionStatus" none [("orderTrackingId", "X")] true =
      ({ token := some (.str "T10"), tokenExpiresAt := none },
       [coreRequest testCfg "GET" "Transactions/GetTransactionStatus" none
         [("orderTrackingId", "X")]
         (some (bearerOf (some (.str "T10"))))],
       coreOutcome c10Gw (coreRequest testCfg "GET" "Transactions/GetTransactionStatus" none
         [("orderTrackingId", "X")]
         (some (bearerOf (some (.str "T10")))))) :=
  ⟨c10_nonnumeric_expiry_ignored.1 testCfg c10Gw 50 initialState c10Body
      (.str "T10") (.str "2026-01-01T00:00:00Z") rfl rfl rfl rfl rfl,
   c10_nonnumeric_expiry_ignored.2.1 _ (.str "T10") 99999 rfl rfl rfl,
   c10_nonnumeric_expiry_ignored.2.2 testCfg c10Gw 99999 _ (.str "T10")
      "GET" "Transactions/GetTransactionStatus" none [("orderTrackingId", "X")] rfl rfl rfl⟩

/-- Claim C3 (code bug): `__init__` stores the pair (10, 30) only as an
ad-hoc `timeout` attribute on the session; every request `_make_request`
hands to `session.request` carries no `timeout` argument, so under the
requests-library semantics no timeout applies to any HTTP request the client
issues. -/
theorem c3_requests_carry_no_timeout :
    initSession.timeoutAttr = some (10, 30) ∧
    ∀ (cfg : PesapalConfig) (gw : WireRequest → WireResult)
      (method endpoint : String) (data : Option JsonVal)
      (params : List (String × String)) (authHeader : Option String)
      (r : WireRequest),
      r ∈ (makeRequestCore cfg gw method endpoint data params authHeader).1 →
      r.timeoutArg = none ∧ effectiveTimeout r = none := by
  refine ⟨rfl, ?_⟩
  intro cfg gw method endpoint data params authHeader r hr
  have : r = coreRequest cfg method endpoint data params authHeader := by
    simpa [makeRequestCore] using hr
  subst this
  exact ⟨rfl, rfl⟩

/-- Claim C3, witness: the concrete GET request issued by a status lookup
carries no timeout, while the session attribute holds (10, 30). -/
theorem c3_requests_carry_no_timeout_witness :
    initSession.timeoutAttr = some (10, 30) ∧
    (coreRequest testCfg "GET" "Transactions/GetTransactionStatus" none
        [("orderTrackingId", "X")] none).timeoutArg = none ∧
    effectiveTimeout (coreRequest testCfg "GET" "Transactions/GetTransactionStatus" none
        [("orderTrackingId", "X")] none) = none :=
  ⟨c3_requests_carry_no_timeout.1,
   c3_requests_carry_no_timeout.2 testCfg okGw "GET" "Transactions/GetTransactionStatus"
     none [("orderTrackingId", "X")] none _ (List.mem_singleton.mpr rfl)⟩

/-- Claim C4, amended: a 2xx response whose body parses to a JSON object
containing an `error` field whose value is a truthy JSON object makes
`_make_request` raise the typed `PesapalError`, with the message taken from
the error object's `message` field or the fallback Unknown API error when
that field is absent.  (A truthy non-object `error` value instead escapes as
an untyped `AttributeError`; see the counterexample.) -/
theorem c4_error_object_raises (cfg : PesapalConfig)
    (gw : WireRequest → WireResult) (method endpoint : String)
    (data : Option JsonVal) (params : List (String × String))
    (authHeader : Option String) (statusCode : ℕ)
    (fields errFields : List (String × JsonVal))
    (hgw : gw (coreRequest cfg method endpoint data params authHeader) =
      .reply statusCode (some (.obj fields)))
    (h2xx : 200 ≤ statusCode ∧ statusCode < 300)
    (herr : jsonLookup fields "error" = some (.obj errFields))
    (htruthy : (JsonVal.obj errFields).truthy = true) :
    (makeRequestCore cfg gw method endpoint data params authHeader).2 =
      .error (.pesapal
        ("API error: " ++ pyStr ((jsonLookup errFields "message").getD (.str "Unknown API error")))
        (some (.obj fields))) := by
  unfold makeRequestCore coreOutcome
  rw [hgw]
  have hns : ¬(400 ≤ statusCode ∧ statusCode < 600) := by omega
  simp [hns, herr, htruthy]

/-- Claim C4, witness: a 201 reply carrying an error object with a message
raises the typed error with that message. -/
theorem c4_error_object_raises_witness :
    (makeRequestCore testCfg c4WGw "POST" "URLSetup/RegisterIPN" none [] none).2 =
      .error (.pesapal
        ("API error: " ++ pyStr ((jsonLookup [("message", JsonVal.str "Invalid request")] "message").getD (.str "Unknown API error")))
        (some (.obj c4Body))) :=
  c4_error_object_raises testCfg c4WGw "POST" "URLSetup/RegisterIPN" none [] none 201
    c4Body [("message", .str "Invalid request")] rfl (by omega) rfl rfl

/-- Claim C4, counterexample to the claim as stated: a 200 reply whose body
is a JSON object with the truthy non-object `error` value bad creds makes
`_make_request` escape with an untyped `AttributeError` (Python evaluates
`.get` on a string), not with the typed `PesapalError`. -/
theorem c4_counterexample :
    (JsonVal.str "bad creds").truthy = true ∧
    c4Run = .error (.attributeError "get") ∧
    pesapalFailed c4Run = false :=
  ⟨rfl, rfl, rfl⟩

/-- Claim C7: constructing an order with a non-positive amount, or a billing
address with any of the four required fields empty, fails with the local
validation kind (`ValueError`), which is distinct from the network/API kind;
neither constructor involves the gateway (their embeddings take no gateway
and produce no wire request, mirroring the pure validation code). -/
theorem c7_local_validation :
    (∀ (id currency : String) (amount : ℚ)
       (description callback_url notification_id : String) (ba : BillingAddress),
       amount ≤ 0 →
       validationFailed (OrderData.make id currency amount description
         callback_url notification_id ba) = true ∧
       pesapalFailed (OrderData.make id currency amount description
         callback_url notification_id ba) = false) ∧
    (∀ (email phone first last : String)
       (cc l1 l2 city state pc : Option String),
       (email = "" ∨ phone = "" ∨ first = "" ∨ last = "") →
       validationFailed (BillingAddress.make email phone first last cc l1 l2 city state pc) = true ∧
       pesapalFailed (BillingAddress.make email phone first last cc l1 l2 city state pc) = false) := by
  constructor
  · intro id currency amount description callback_url notification_id ba hamt
    unfold OrderData.make
    split_ifs <;> simp_all [validationFailed, pesapalFailed]
  · intro email phone first last cc l1 l2 city state pc hone
    unfold BillingAddress.make
    split_ifs <;> simp_all [validationFailed, pesapalFailed]

/-- Claim C7, witness: a concrete order with amount -5 and a concrete billing
address with an empty email both fail with the validation kind. -/
theorem c7_local_validation_witness :
    (validationFailed (OrderData.make "o1" "KES" (-5) "desc" "https://cb" "n1" c7ba) = true ∧
     pesapalFailed (OrderData.make "o1" "KES" (-5) "desc" "https://cb" "n1" c7ba) = false) ∧
    (validationFailed (BillingAddress.make "" "0700000000" "A" "B"
        none none none none none none) = true ∧
     pesapalFailed (BillingAddress.make "" "0700000000" "A" "B"
        none none none none none none) = false) :=
  ⟨c7_local_validation.1 "o1" "KES" (-5) "desc" "https://cb" "n1" c7ba (by norm_num),
   c7_local_validation.2 "" "0700000000" "A" "B" none none none none none none
     (Or.inl rfl)⟩

/-- Helper: stripping trailing slashes leaves no trailing slash. -/
theorem endsWithSlash_rstripSlash (u : String) :
    endsWithSlash (rstripSlash u) = false := by
  unfold endsWithSlash rstripSlash
  show (match (u.data.rdropWhile (fun c => c == '/')).getLast? with
        | some c => c == '/'
        | none => false) = false
  rcases hgl : (u.data.rdropWhile (fun c => c == '/')).getLast? with _ | c
  · rfl
  · have hne : u.data.rdropWhile (fun c => c == '/') ≠ [] := by
      intro hnil
      rw [hnil] at hgl
      simp at hgl
    rw [List.getLast?_eq_getLast _ hne] at hgl
    have hc : c = (u.data.rdropWhile (fun c => c == '/')).getLast hne :=
      (Option.some_inj.mp hgl).symm
    have hnp := List.rdropWhile_last_not (fun c => c == '/') u.data hne
    subst hc
    simpa using hnp

/-- Helper: if the base URL contains any non-slash character, stripping
trailing slashes leaves a non-empty string. -/
theorem rstripSlash_ne_empty (u : String)
    (h : u.data.any (fun ch => ch != '/') = true) : rstripSlash u ≠ "" := by
  intro hempty
  have hnil : u.data.rdropWhile (fun c => c == '/') = [] := by
    have : (rstripSlash u).data = ("" : String).data := by rw [hempty]
    simpa [rstripSlash] using this
  have hall := List.rdropWhile_eq_nil_iff.mp hnil
  obtain ⟨x, hx, hxne⟩ := List.any_eq_true.mp h
  have hxn : x ≠ '/' := by simpa using hxne
  have hxe : x = '/' := by simpa using hall x hx
  exact hxn hxe

/-- Claim C8, amended: every successfully constructed configuration has a
non-empty consumer key and consumer secret, and its stored base URL carries
no trailing slash; the stored base URL is moreover non-empty whenever the
supplied base URL contains any non-slash character (a base URL consisting
solely of slashes passes validation but is stripped to the empty string;
see the counterexample). -/
theorem c8_config_invariant (k s u : String) (c : PesapalConfig)
    (h : PesapalConfig.make k s u = .ok c) :
    c.consumer_key ≠ "" ∧ c.consumer_secret ≠ "" ∧
    endsWithSlash c.api_base_url = false ∧
    (u.data.any (fun ch => ch != '/') = true → c.api_base_url ≠ "") := by
  unfold PesapalConfig.make at h
  split_ifs at h with hk hs hu
  rw [Except.ok.injEq] at h
  rw [← h]
  exact ⟨hk, hs, endsWithSlash_rstripSlash u, fun ha => rstripSlash_ne_empty u ha⟩

/-- Claim C8, witness: the amended theorem at a concrete input with a
trailing slash. -/
theorem c8_config_invariant_witness :
    ("k" : String) ≠ "" ∧ ("s" : String) ≠ "" ∧
    endsWithSlash (rstripSlash "https://a/") = false ∧
    ("https://a/".data.any (fun ch => ch != '/') = true → rstripSlash "https://a/" ≠ "") :=
  c8_config_invariant "k" "s" "https://a/"
    { consumer_key := "k", consumer_secret := "s", api_base_url := rstripSlash "https://a/" }
    rfl

/-- Claim C8, counterexample to the claim as stated: the base URL input
consisting of a single slash passes the non-emptiness validation (it is a
non-empty string), yet the constructed configuration stores the empty base
URL, so not all three fields are non-empty after construction. -/
theorem c8_counterexample :
    PesapalConfig.make "k" "s" "/" = .ok c8Cfg ∧ c8Cfg.api_base_url = "" :=
  ⟨rfl, rfl⟩

/-- Helper: two distinct string literals give distinct JSON string values. -/
theorem jsonStr_ne (s1 s2 : String) (h : s1 ≠ s2) :
    JsonVal.str s1 ≠ JsonVal.str s2 :=
  fun hc => h (Eq.mp (JsonVal.str.injEq s1 s2) hc)

/-- Helper: the Python membership test against a two-string list is false for
a value that is neither of the two strings (a non-string value is never equal
to a string). -/
theorem pyInStrList_pair_false (v : JsonVal) (x y : String)
    (h1 : v ≠ .str x) (h2 : v ≠ .str y) :
    pyInStrList v [x, y] = false := by
  unfold pyInStrList
  rcases v with _ | b | q | s | elems | fields
  · rfl
  · rfl
  · rfl
  · have hs1 : s ≠ x := fun h => h1 (by rw [h])
    have hs2 : s ≠ y := fun h => h2 (by rw [h])
    simp [List.contains_cons, hs1, hs2]
  · rfl
  · rfl

/-- Claim C5: a refund request with an explicit amount a against a
transaction whose status lookup reports the description Completed and a
recorded numeric amount T returns, when a is at most T, the advisory record
with `refund_amount` a and `request_type` partial_refund; and fails with the
typed network/API error (the amount-exceeds rejection, raised before the
advisory record is built) when a exceeds T. -/
theorem c5_refund_policy (cfg : PesapalConfig) (gw : WireRequest → WireResult)
    (now : ℚ) (st st1 : ClientState) (trace : List WireRequest)
    (status : TransactionStatusResponse) (tid reason : String) (a T : ℚ)
    (htid : tid ≠ "")
    (hlookup : getTransactionStatus cfg gw now st tid = (st1, trace, .ok status))
    (hpsd : status.payment_status_description = some (.str "Completed"))
    (hamt : status.amount = some (.num T)) :
    (a ≤ T →
      refundTransaction cfg gw now st tid (some a) reason =
        (st1, trace, .ok (.obj (refundRecordFields tid (.num T) (.num a) reason true now))) ∧
      jsonLookup (refundRecordFields tid (.num T) (.num a) reason true now)
        "refund_amount" = some (.num a) ∧
      jsonLookup (refundRecordFields tid (.num T) (.num a) reason true now)
        "request_type" = some (.str "partial_refund")) ∧
    (T < a →
      refundTransaction cfg gw now st tid (some a) reason =
        (st1, trace, .error (.pesapal (refundExceedsMsg a T) none))) := by
  have hred : refundTransaction cfg gw now st tid (some a) reason =
      (if T < a then (st1, trace, .error (.pesapal (refundExceedsMsg a T) none))
       else (st1, trace,
         .ok (.obj (refundRecordFields tid (.num T) (.num a) reason true now)))) := by
    unfold refundTransaction
    rw [if_neg htid, hlookup]
    simp [hpsd, hamt]
  constructor
  · intro hle
    rw [hred, if_neg (not_lt.mpr hle)]
    exact ⟨rfl, rfl, rfl⟩
  · intro hlt
    rw [hred, if_pos hlt]

/-- Claim C5, witness: refunding 500 of a completed 1000 transaction yields
the partial-refund advisory record. -/
theorem c5_refund_policy_witness :
    (500 : ℚ) ≤ 1000 ∧
    refundTransaction testCfg c5Gw 7 c5St "X" (some 500) "Customer refund" =
      (c5St, [c5Req],
       .ok (.obj (refundRecordFields "X" (.num 1000) (.num 500) "Customer refund" true 7))) ∧
    jsonLookup (refundRecordFields "X" (.num 1000) (.num 500) "Customer refund" true 7)
      "refund_amount" = some (.num 500) ∧
    jsonLookup (refundRecordFields "X" (.num 1000) (.num 500) "Customer refund" true 7)
      "request_type" = some (.str "partial_refund") :=
  ⟨by norm_num,
   (c5_refund_policy testCfg c5Gw 7 c5St c5St [c5Req] c5Status "X" "Customer refund"
      500 1000 (by decide) rfl rfl rfl).1 (by norm_num)⟩

/-- Claim C6: a cancellation request whose status lookup reports the
description Completed or Failed fails with the typed network/API error;
one reporting Pending or Processing succeeds, returning the advisory record
with `request_type` cancellation. -/
theorem c6_cancel_policy (cfg : PesapalConfig) (gw : WireRequest → WireResult)
    (now : ℚ) (st st1 : ClientState) (trace : List WireRequest)
    (status : TransactionStatusResponse) (tid reason d : String)
    (htid : tid ≠ "")
    (hlookup : getTransactionStatus cfg gw now st tid = (st1, trace, .ok status))
    (hpsd : status.payment_status_description = some (.str d)) :
    ((d = "Completed" ∨ d = "Failed") →
      cancelOrder cfg gw now st tid reason =
        (st1, trace, .error (.pesapal (cancelRejectMsg tid (.str d)) none))) ∧
    ((d = "Pending" ∨ d = "Processing") →
      cancelOrder cfg gw now st tid reason =
        (st1, trace, .ok (.obj (cancelRecordFields tid (.str d) reason now))) ∧
      jsonLookup (cancelRecordFields tid (.str d) reason now) "request_type" =
        some (.str "cancellation")) := by
  constructor
  · rintro (rfl | rfl) <;>
    · unfold cancelOrder
      rw [if_neg htid, hlookup]
      simp [hpsd, pyInStrList, List.contains_cons]
  · rintro (rfl | rfl) <;>
    · refine ⟨?_, rfl⟩
      unfold cancelOrder
      rw [if_neg htid, hlookup]
      simp [hpsd, pyInStrList, List.contains_cons]

/-- Claim C6, witness: cancelling a Pending transaction yields the
cancellation advisory record. -/
theorem c6_cancel_policy_witness :
    cancelOrder testCfg c6Gw 9 c5St "X" "Customer changed mind" =
      (c5St, [c5Req],
       .ok (.obj (cancelRecordFields "X" (.str "Pending") "Customer changed mind" 9))) ∧
    jsonLookup (cancelRecordFields "X" (.str "Pending") "Customer changed mind" 9)
      "request_type" = some (.str "cancellation") :=
  (c6_cancel_policy testCfg c6Gw 9 c5St c5St [c5Req] c6Status "X"
    "Customer changed mind" "Pending" (by decide) rfl rfl).2 (Or.inl rfl)

/-- Claim C9: a cancellation request whose status lookup reports a
description that is none of Completed, Failed, Pending, Processing
(including an absent description, which reads as Python None) does not
raise: it returns the generic record with status cancellation_not_applicable
and no `request_type` field. -/
theorem c9_cancel_not_applicable (cfg : PesapalConfig)
    (gw : WireRequest → WireResult) (now : ℚ) (st st1 : ClientState)
    (trace : List WireRequest) (status : TransactionStatusResponse)
    (tid reason : String)
    (htid : tid ≠ "")
    (hlookup : getTransactionStatus cfg gw now st tid = (st1, trace, .ok status))
    (h1 : (status.payment_status_description).getD .null ≠ .str "Completed")
    (h2 : (status.payment_status_description).getD .null ≠ .str "Failed")
    (h3 : (status.payment_status_description).getD .null ≠ .str "Pending")
    (h4 : (status.payment_status_description).getD .null ≠ .str "Processing") :
    cancelOrder cfg gw now st tid reason =
      (st1, trace, .ok (.obj (cancelNaFields tid
        ((status.payment_status_description).getD .null) reason now))) ∧
    jsonLookup (cancelNaFields tid ((status.payment_status_description).getD .null)
      reason now) "status" = some (.str "cancellation_not_applicable") ∧
    jsonLookup (cancelNaFields tid ((status.payment_status_description).getD .null)
      reason now) "request_type" = none := by
  refine ⟨?_, rfl, rfl⟩
  have hin1 := pyInStrList_pair_false _ "Completed" "Failed" h1 h2
  have hin2 := pyInStrList_pair_false _ "Pending" "Processing" h3 h4
  unfold cancelOrder
  rw [if_neg htid, hlookup]
  simp [hin1, hin2]

/-- Claim C9, witness: cancelling a transaction whose status lookup reports
the unrecognised description INVALID returns the not-applicable record. -/
theorem c9_cancel_not_applicable_witness :
    cancelOrder testCfg c9Gw 11 c5St "X" "reason" =
      (c5St, [c5Req],
       .ok (.obj (cancelNaFields "X" (.str "INVALID") "reason" 11))) ∧
    jsonLookup (cancelNaFields "X" (.str "INVALID") "reason" 11) "status" =
      some (.str "cancellation_not_applicable") ∧
    jsonLookup (cancelNaFields "X" (.str "INVALID") "reason" 11) "request_type" = none :=
  c9_cancel_not_applicable testCfg c9Gw 11 c5St c5St [c5Req] c9Status "X" "reason"
    (by decide) rfl
    (jsonStr_ne "INVALID" "Completed" (by decide))
    (jsonStr_ne "INVALID" "Failed" (by decide))
    (jsonStr_ne "INVALID" "Pending" (by decide))
    (jsonStr_ne "INVALID" "Processing" (by decide))

end PesapalV3
